import Mathlib

/-!
Verification of the soroban-ajo rotating-savings (ROSCA) contract.

This file gives a shallow embedding of the contract's data model and
operations (contract.rs, security.rs, insurance.rs, token.rs, types.rs)
and proves properties about them.

Modelling conventions:
- Addresses and timestamps are `Nat`; `i128` amounts are `Int`.  All
  amounts handled by validated groups are far below the `i128` range
  (contribution_amount is at most 10^16 and member counts at most 100),
  so machine overflow cannot occur on the verified paths and is not
  modelled.
- Soroban persistent storage (storage.rs is referenced by the sources but
  its file is not part of the sources; the spec describes it as a plain
  get/put durable store) is modelled as total functions inside an explicit
  `ContractState`, with absent keys mapped to `none`/`false`.
- Every operation is embedded as `State -> args -> State x Except Error ret`:
  the returned state is the storage content after the function body ran,
  so writes performed before an early `return Err(..)` are visible, exactly
  as the Rust functions behave.
- `require_auth` (caller authentication) is an external collaborator that
  either passes or aborts the call before anything happens; it is modelled
  as always passing.
- Token transfers (token.rs `transfer_token`, which always returns `Ok`)
  and payout events are modelled as append-only logs in the state.
-/

namespace Ajo

/-- An account / contract address (external identity, modelled as `Nat`). -/
abbrev Address := Nat

/-- Errors of the contract.  Modelled from the spec: the file `errors.rs`
declaring `AjoError` is referenced by the sources but not among them; the
variants below are exactly the ones the embedded functions use, with the
names the sources and the spec use. -/
inductive AjoError where
  | GroupNotFound
  | GroupComplete
  | AlreadyMember
  | MaxMembersExceeded
  | NotMember
  | AlreadyContributed
  | IncompleteContributions
  | NoMembers
  | ContributionAmountZero
  | ContributionAmountNegative
  | CycleDurationZero
  | MaxMembersBelowMinimum
  | MaxMembersAboveLimit
  | MetadataTooLong
  | InvalidClaim
  | ClaimAlreadyProcessed
  | PoolNotFound
  | InsufficientPoolBalance
  | ContractPaused
  deriving DecidableEq, Repr

/-- Status of an insurance claim (types.rs `ClaimStatus`). -/
inductive ClaimStatus where
  | Pending
  | Approved
  | Rejected
  | Paid
  deriving DecidableEq, Repr

/-- An Ajo group (types.rs `Group`).  The fields are the ones the embedded
operations read or write.  types.rs additionally declares a `state` enum and
an `insurance_config`, but no function in the sources ever reads or writes
them (contract.rs tracks completion solely through `is_complete`), so they
are omitted; "marked Complete" is `is_complete = true`. -/
structure Group where
  contribution_amount : Int
  creator : Address
  token_address : Address
  members : List Address
  id : Nat
  cycle_duration : Nat
  created_at : Nat
  cycle_start_time : Nat
  max_members : Nat
  current_cycle : Nat
  payout_index : Nat
  is_complete : Bool
  grace_period : Nat
  penalty_rate : Nat
  deriving DecidableEq, Repr

/-- Insurance fund balance tracking (types.rs `InsurancePool`). -/
structure InsurancePool where
  balance : Int
  total_payouts : Int
  pending_claims_count : Nat
  deriving DecidableEq, Repr

/-- An insurance claim (types.rs `InsuranceClaim`). -/
structure InsuranceClaim where
  id : Nat
  group_id : Nat
  cycle : Nat
  defaulter : Address
  claimant : Address
  amount : Int
  status : ClaimStatus
  created_at : Nat
  deriving DecidableEq, Repr

/-- Penalty statistics for a member within a group (types.rs
`MemberPenaltyRecord`).  Declared in types.rs; no function in the sources
ever creates or mutates such a record. -/
structure MemberPenaltyRecord where
  member : Address
  group_id : Nat
  late_count : Nat
  on_time_count : Nat
  total_penalties : Int
  reliability_score : Nat
  deriving DecidableEq, Repr

/-- The whole persistent state of the contract.  Modelled from the spec:
the durable store holds groups by id, per-(group, cycle, member)
contribution flags, per-(group, member) payout-received flags, claims,
pools, penalty records and monotonically incrementing id counters.
`transfers` logs token transfers `(token, from, to, amount)` and
`payout_log` logs emitted payout events
`(group, recipient, cycle, amount)`. -/
structure ContractState where
  paused : Bool
  next_group_id : Nat
  next_claim_id : Nat
  groups : Nat → Option Group
  contributions : Nat → Nat → Address → Bool
  payouts_received : Nat → Address → Bool
  claims : Nat → Option InsuranceClaim
  pools : Address → Option InsurancePool
  penalty_records : Nat → Address → Option MemberPenaltyRecord
  transfers : List (Address × Address × Address × Int)
  payout_log : List (Nat × Address × Nat × Int)

/-- The freshly deployed contract: nothing stored yet. -/
def initState : ContractState where
  paused := false
  next_group_id := 0
  next_claim_id := 0
  groups := fun _ => none
  contributions := fun _ _ _ => false
  payouts_received := fun _ _ => false
  claims := fun _ => none
  pools := fun _ => none
  penalty_records := fun _ _ => none
  transfers := []
  payout_log := []

/-- The contract's own address (`env.current_contract_address()`), an
external constant. -/
def contract_address : Address := 0

/-! ### Storage primitives (storage.rs is absent from the sources;
modelled from the spec's durable get/put store). -/

/-- Modelled from the spec: `storage::store_group` writes a group under its id. -/
def store_group (gs : Nat → Option Group) (k : Nat) (g : Group) : Nat → Option Group :=
  fun i => if i = k then some g else gs i

/-- Modelled from the spec: `storage::store_contribution` writes the flag for
`(group, cycle, member)`. -/
def store_contribution (f : Nat → Nat → Address → Bool) (gid cyc : Nat) (m : Address)
    (v : Bool) : Nat → Nat → Address → Bool :=
  fun g c a => if g = gid ∧ c = cyc ∧ a = m then v else f g c a

/-- Modelled from the spec: `storage::has_contributed` reads the flag for
`(group, cycle, member)`; an absent record reads as `false`. -/
def has_contributed (s : ContractState) (gid cyc : Nat) (m : Address) : Bool :=
  s.contributions gid cyc m

/-- Modelled from the spec: `storage::mark_payout_received` sets the
per-(group, member) payout-received flag. -/
def mark_payout_received (f : Nat → Address → Bool) (gid : Nat) (m : Address) :
    Nat → Address → Bool :=
  fun g a => if g = gid ∧ a = m then true else f g a

/-- Modelled from the spec: `storage::store_insurance_claim` writes a claim by id. -/
def store_insurance_claim (cs : Nat → Option InsuranceClaim) (k : Nat)
    (c : InsuranceClaim) : Nat → Option InsuranceClaim :=
  fun i => if i = k then some c else cs i

/-- Modelled from the spec: `storage::store_insurance_pool` writes the pool
of a token. -/
def store_insurance_pool (ps : Address → Option InsurancePool) (tok : Address)
    (p : InsurancePool) : Address → Option InsurancePool :=
  fun t => if t = tok then some p else ps t

/-! ### Validation (security.rs) -/

/-- security.rs `limits::MIN_CONTRIBUTION` (0.01 XLM in stroops). -/
def MIN_CONTRIBUTION : Int := 100000

/-- security.rs `limits::MAX_CONTRIBUTION` (10 million XLM in stroops). -/
def MAX_CONTRIBUTION : Int := 10000000000000000

/-- security.rs `limits::MIN_CYCLE_DURATION` (1 hour in seconds). -/
def MIN_CYCLE_DURATION : Nat := 3600

/-- security.rs `limits::MAX_CYCLE_DURATION` (365 days in seconds). -/
def MAX_CYCLE_DURATION : Nat := 31536000

/-- security.rs `limits::MIN_MEMBERS`. -/
def MIN_MEMBERS : Nat := 2

/-- security.rs `limits::MAX_MEMBERS`. -/
def MAX_MEMBERS : Nat := 100

/-- security.rs `limits::MAX_NAME_LENGTH`. -/
def MAX_NAME_LENGTH : Nat := 100

/-- security.rs `limits::MAX_DESCRIPTION_LENGTH`. -/
def MAX_DESCRIPTION_LENGTH : Nat := 500

/-- security.rs `limits::MAX_RULES_LENGTH`. -/
def MAX_RULES_LENGTH : Nat := 1000

/-- security.rs `validate_group_params`. -/
def validate_group_params (contribution_amount : Int) (cycle_duration : Nat)
    (max_members : Nat) : Except AjoError Unit :=
  if contribution_amount = 0 then .error .ContributionAmountZero
  else if contribution_amount < 0 then .error .ContributionAmountNegative
  else if contribution_amount < MIN_CONTRIBUTION then .error .ContributionAmountZero
  else if contribution_amount > MAX_CONTRIBUTION then .error .ContributionAmountNegative
  else if cycle_duration = 0 then .error .CycleDurationZero
  else if cycle_duration < MIN_CYCLE_DURATION then .error .CycleDurationZero
  else if cycle_duration > MAX_CYCLE_DURATION then .error .CycleDurationZero
  else if max_members < MIN_MEMBERS then .error .MaxMembersBelowMinimum
  else if max_members > MAX_MEMBERS then .error .MaxMembersAboveLimit
  else .ok ()

/-- security.rs `validate_metadata_lengths`. -/
def validate_metadata_lengths (name_len description_len rules_len : Nat) :
    Except AjoError Unit :=
  if MAX_NAME_LENGTH < name_len ∨ MAX_DESCRIPTION_LENGTH < description_len
      ∨ MAX_RULES_LENGTH < rules_len then
    .error .MetadataTooLong
  else .ok ()

/-- security.rs `is_member`: linear scan of the member list. -/
def is_member (members : List Address) (address : Address) : Bool :=
  members.any (fun m => m = address)

/-- security.rs `all_members_contributed`: every member has the flag for the
group's current cycle. -/
def all_members_contributed (s : ContractState) (group : Group) : Bool :=
  group.members.all (fun m => has_contributed s group.id group.current_cycle m)

/-! ### Group lifecycle operations (contract.rs) -/

/-- contract.rs `create_group`.  Validates the parameters, then checks the
pause flag, then stores a fresh group under the next id and returns the id.
`now` is the ledger clock reading.  contract.rs's group literal does not set
`token_address`, `grace_period` or `penalty_rate` (its constructor predates
the types.rs fields); they are taken here as pass-through arguments so the
remaining fields are exactly the contract.rs literal:
`current_cycle = 1`, `payout_index = 0`, `is_complete = false`,
`created_at = cycle_start_time = now`, members `[creator]`. -/
def create_group (s : ContractState) (creator : Address) (token_address : Address)
    (contribution_amount : Int) (cycle_duration : Nat) (max_members : Nat)
    (grace_period : Nat) (penalty_rate : Nat) (now : Nat) :
    ContractState × Except AjoError Nat :=
  match validate_group_params contribution_amount cycle_duration max_members with
  | .error e => (s, .error e)
  | .ok _ =>
    if s.paused then (s, .error .ContractPaused)
    else
      let group_id := s.next_group_id
      let group : Group :=
        { id := group_id
          creator := creator
          contribution_amount := contribution_amount
          cycle_duration := cycle_duration
          max_members := max_members
          members := [creator]
          current_cycle := 1
          payout_index := 0
          created_at := now
          cycle_start_time := now
          is_complete := false
          token_address := token_address
          grace_period := grace_period
          penalty_rate := penalty_rate }
      ({ s with
          next_group_id := group_id + 1
          groups := store_group s.groups group_id group },
       .ok group_id)

/-- contract.rs `join_group`: pause check, lookup, completion check,
duplicate-member check, capacity check, then append the member and store. -/
def join_group (s : ContractState) (member : Address) (group_id : Nat) :
    ContractState × Except AjoError Unit :=
  if s.paused then (s, .error .ContractPaused)
  else
    match s.groups group_id with
    | none => (s, .error .GroupNotFound)
    | some group =>
      if group.is_complete then (s, .error .GroupComplete)
      else if is_member group.members member then (s, .error .AlreadyMember)
      else if group.max_members ≤ group.members.length then (s, .error .MaxMembersExceeded)
      else
        let group1 := { group with members := group.members ++ [member] }
        ({ s with groups := store_group s.groups group_id group1 }, .ok ())

/-- contract.rs `contribute`: pause check, lookup, completion check,
membership check, double-contribution check, then record the flag for
`(group.id, group.current_cycle, member)`.  The function reads no clock and
moves no tokens; its doc comment says fund transfers are handled externally. -/
def contribute (s : ContractState) (member : Address) (group_id : Nat) :
    ContractState × Except AjoError Unit :=
  if s.paused then (s, .error .ContractPaused)
  else
    match s.groups group_id with
    | none => (s, .error .GroupNotFound)
    | some group =>
      if group.is_complete then (s, .error .GroupComplete)
      else if is_member group.members member = false then (s, .error .NotMember)
      else if has_contributed s group.id group.current_cycle member then
        (s, .error .AlreadyContributed)
      else
        ({ s with contributions :=
            store_contribution s.contributions group.id group.current_cycle member true },
         .ok ())

/-- contract.rs `execute_payout`: pause check, lookup, completion check,
all-contributed check, recipient `members[payout_index]`, payout amount
`contribution_amount * member_count`, mark payout received and emit the
payout event, advance `payout_index`, then either mark the group complete
(index reached the member count) or advance the cycle and reset
`cycle_start_time` to `now`; finally store the group. -/
def execute_payout (s : ContractState) (group_id : Nat) (now : Nat) :
    ContractState × Except AjoError Unit :=
  if s.paused then (s, .error .ContractPaused)
  else
    match s.groups group_id with
    | none => (s, .error .GroupNotFound)
    | some group =>
      if group.is_complete then (s, .error .GroupComplete)
      else if all_members_contributed s group = false then
        (s, .error .IncompleteContributions)
      else
        match group.members.get? group.payout_index with
        | none => (s, .error .NoMembers)
        | some payout_recipient =>
          let payout_amount := group.contribution_amount * (group.members.length : Int)
          let s1 := { s with
            payouts_received :=
              mark_payout_received s.payouts_received group.id payout_recipient
            payout_log := s.payout_log ++
              [(group.id, payout_recipient, group.current_cycle, payout_amount)] }
          let group1 := { group with payout_index := group.payout_index + 1 }
          let group2 :=
            if group.members.length ≤ group1.payout_index then
              { group1 with is_complete := true }
            else
              { group1 with
                current_cycle := group.current_cycle + 1
                cycle_start_time := now }
          ({ s1 with groups := store_group s1.groups group_id group2 }, .ok ())

/-! ### Insurance subsystem (insurance.rs) -/

/-- insurance.rs `file_claim`.  Note the order of the source: it draws the
next claim id and stores the Pending claim FIRST, and only then looks the
group up; when the group is absent it returns `GroupNotFound` with the claim
already persisted.  On success it bumps the pending-claim counter of the
pool of the group's token (creating a zeroed pool when absent). -/
def file_claim (s : ContractState) (group_id : Nat) (cycle : Nat)
    (claimant : Address) (defaulter : Address) (amount : Int) (now : Nat) :
    ContractState × Except AjoError Nat :=
  let claim_id := s.next_claim_id
  let claim : InsuranceClaim :=
    { id := claim_id
      group_id := group_id
      cycle := cycle
      defaulter := defaulter
      claimant := claimant
      amount := amount
      status := .Pending
      created_at := now }
  let s1 := { s with
    next_claim_id := claim_id + 1
    claims := store_insurance_claim s.claims claim_id claim }
  match s1.groups group_id with
  | none => (s1, .error .GroupNotFound)
  | some group =>
    let pool := (s1.pools group.token_address).getD
      { balance := 0, total_payouts := 0, pending_claims_count := 0 }
    let pool1 := { pool with pending_claims_count := pool.pending_claims_count + 1 }
    ({ s1 with pools := store_insurance_pool s1.pools group.token_address pool1 },
     .ok claim_id)

/-- insurance.rs `process_claim`: reject missing claims (`InvalidClaim`),
non-Pending claims (`ClaimAlreadyProcessed`), missing group
(`GroupNotFound`), missing pool of the group's token (`PoolNotFound`); on
approval with enough balance debit the pool, credit `total_payouts`, set the
claim `Paid` and transfer the amount from the contract to the claimant
(token.rs `transfer_token`, which always succeeds); on rejection set it
`Rejected`; in either non-failing case decrement `pending_claims_count`.
The `u32` decrement is modelled as truncated `Nat` subtraction. -/
def process_claim (s : ContractState) (claim_id : Nat) (approved : Bool) :
    ContractState × Except AjoError Unit :=
  match s.claims claim_id with
  | none => (s, .error .InvalidClaim)
  | some claim =>
    if claim.status ≠ ClaimStatus.Pending then (s, .error .ClaimAlreadyProcessed)
    else
      match s.groups claim.group_id with
      | none => (s, .error .GroupNotFound)
      | some group =>
        match s.pools group.token_address with
        | none => (s, .error .PoolNotFound)
        | some pool =>
          if approved then
            if pool.balance < claim.amount then (s, .error .InsufficientPoolBalance)
            else
              let pool1 : InsurancePool :=
                { balance := pool.balance - claim.amount
                  total_payouts := pool.total_payouts + claim.amount
                  pending_claims_count := pool.pending_claims_count - 1 }
              let claim1 := { claim with status := ClaimStatus.Paid }
              let transfer := (group.token_address, contract_address,
                claim.claimant, claim.amount)
              ({ s with
                  transfers := s.transfers ++ [transfer]
                  pools := store_insurance_pool s.pools group.token_address pool1
                  claims := store_insurance_claim s.claims claim_id claim1 },
               .ok ())
          else
            let pool1 :=
              { pool with pending_claims_count := pool.pending_claims_count - 1 }
            let claim1 := { claim with status := ClaimStatus.Rejected }
            ({ s with
                pools := store_insurance_pool s.pools group.token_address pool1
                claims := store_insurance_claim s.claims claim_id claim1 },
             .ok ())

/-- insurance.rs `verify_claim`: a claim is valid exactly when the defaulter
has no contribution record for `(group, cycle)`. -/
def verify_claim (s : ContractState) (claim_id : Nat) : Except AjoError Bool :=
  match s.claims claim_id with
  | none => .error .InvalidClaim
  | some claim =>
    .ok (!(has_contributed s claim.group_id claim.cycle claim.defaulter))

/-- insurance.rs `get_member_risk_score`: the source returns the constant
`100` for every member ("assume a default of 100 (best)"). -/
def get_member_risk_score (_s : ContractState) (_member : Address) : Nat :=
  100

/-! ### Definitions following the spec's words, for comparison with the
source behaviour (refutation witnesses of refinement claims). -/

/-- Modelled from the spec: the reliability score formula of section 4.3,
`on_time_count * 100 / (on_time_count + late_count)`, capped at `100` and
defined as `100` when no contributions were recorded.  The sources contain
no such computation (`get_member_risk_score` is a constant). -/
def specReliabilityScore (on_time_count late_count : Nat) : Nat :=
  if on_time_count + late_count = 0 then 100
  else min (on_time_count * 100 / (on_time_count + late_count)) 100

/-- Modelled from the spec: the penalty of section 4.2 `contribute`,
`penalty_rate` percent of the contributed amount when the contribution is
late (`now > cycle_start_time + cycle_duration`).  The sources contain no
penalty computation. -/
def specLatePenalty (g : Group) (amount : Int) (now : Nat) : Int :=
  if g.cycle_start_time + g.cycle_duration < now then
    amount * (g.penalty_rate : Int) / 100
  else 0

/-- Modelled from the spec: the payout amount of section 4.2
`execute_payout`, `contribution_amount * member_count` plus the accumulated
cycle penalty pool.  The sources maintain no penalty pool. -/
def specPayoutWithPool (g : Group) (penalty_pool : Int) : Int :=
  g.contribution_amount * (g.members.length : Int) + penalty_pool

/-! ### Reachability (group lifecycle state machine) and invariant -/

/-- States reachable from the fresh contract by the group-lifecycle
operations named in claim C1: `create_group`, `join_group`, `contribute`
and `execute_payout`, with arbitrary arguments and clock readings (failing
calls keep the state unchanged, so including them is harmless). -/
inductive Reachable : ContractState → Prop where
  | init : Reachable initState
  | create_step (s : ContractState) (creator token_address : Address) (amount : Int)
      (cycle_duration max_members grace_period penalty_rate now : Nat) :
      Reachable s →
      Reachable (create_group s creator token_address amount cycle_duration
        max_members grace_period penalty_rate now).1
  | join_step (s : ContractState) (member : Address) (group_id : Nat) :
      Reachable s → Reachable (join_group s member group_id).1
  | contribute_step (s : ContractState) (member : Address) (group_id : Nat) :
      Reachable s → Reachable (contribute s member group_id).1
  | payout_step (s : ContractState) (group_id now : Nat) :
      Reachable s → Reachable (execute_payout s group_id now).1

/-- The claimed per-group invariant: the payout index never passes the
member count, and the group is marked complete exactly when it reaches it. -/
def GroupInvariant (g : Group) : Prop :=
  g.payout_index ≤ g.members.length ∧
  (g.is_complete = true ↔ g.payout_index = g.members.length)

/-! ### Concrete states used by witnesses and counterexamples -/

/-- A concrete demo group: two members `[1, 2]`, 100,000,000 stroop
contribution, one-week cycles started at time 1000, 24-hour grace period,
5 percent penalty rate, funded in token 7, stored under id 1. -/
def wGroup : Group :=
  { contribution_amount := 100000000
    creator := 1
    token_address := 7
    members := [1, 2]
    id := 1
    cycle_duration := 604800
    created_at := 1000
    cycle_start_time := 1000
    max_members := 2
    current_cycle := 1
    payout_index := 0
    is_complete := false
    grace_period := 86400
    penalty_rate := 5 }

/-- A state holding just `wGroup` under id 1. -/
def wState : ContractState :=
  { initState with groups := store_group initState.groups 1 wGroup }

/-- `wState` after both members contributed to cycle 1 (two `contribute`
calls of the source). -/
def wStateContributed : ContractState :=
  (contribute (contribute wState 1 1).1 2 1).1

/-- A penalty record as the spec describes it for a member with one on-time
and one late contribution. -/
def wPenaltyRecord : MemberPenaltyRecord :=
  { member := 2
    group_id := 1
    late_count := 1
    on_time_count := 1
    total_penalties := 5000000
    reliability_score := 50 }

/-- `wState` with `wPenaltyRecord` stored for member 2 of group 1. -/
def wPenaltyState : ContractState :=
  { wState with penalty_records := fun g a => if g = 1 ∧ a = 2 then some wPenaltyRecord else none }

/-- A Pending claim of 600 against group 1 (spec scenario of section 8). -/
def wClaim : InsuranceClaim :=
  { id := 0
    group_id := 1
    cycle := 1
    defaulter := 2
    claimant := 3
    amount := 600
    status := .Pending
    created_at := 0 }

/-- An insurance pool with balance 500 and one pending claim (spec scenario
of section 8). -/
def wPool : InsurancePool :=
  { balance := 500, total_payouts := 0, pending_claims_count := 1 }

/-- `wState` with `wClaim` stored under claim id 0 and `wPool` as the pool
of token 7 (the token of `wGroup`). -/
def wClaimState : ContractState :=
  { wState with
      claims := store_insurance_claim wState.claims 0 wClaim
      pools := store_insurance_pool wState.pools 7 wPool }

/-- The group stored by the first `create_group` call of the C1 witness
run: `create_group` from the fresh contract with creator 1, token 7, amount
100,000,000, one-week cycles, 2 members maximum, at time 1000. -/
def wCreatedGroup : Group :=
  { id := 0
    creator := 1
    contribution_amount := 100000000
    cycle_duration := 604800
    max_members := 2
    members := [1]
    current_cycle := 1
    payout_index := 0
    created_at := 1000
    cycle_start_time := 1000
    is_complete := false
    token_address := 7
    grace_period := 86400
    penalty_rate := 5 }

/-! ### Helper lemmas -/

/-- Inversion of `contribute`: either it fails and leaves the state intact,
or all its guards passed and it only set the contribution flag. -/
theorem contribute_cases (s : ContractState) (m : Address) (gid : Nat) :
    ((contribute s m gid).1 = s ∧ (contribute s m gid).2 ≠ .ok ()) ∨
    (∃ g, s.groups gid = some g ∧ s.paused = false ∧ g.is_complete = false ∧
      is_member g.members m = true ∧ s.contributions g.id g.current_cycle m = false ∧
      (contribute s m gid).1 =
        { s with contributions :=
            store_contribution s.contributions g.id g.current_cycle m true } ∧
      (contribute s m gid).2 = .ok ()) := by
  unfold contribute
  split
  · exact Or.inl ⟨rfl, by simp⟩
  next hp =>
    split
    next hg => exact Or.inl ⟨rfl, by simp⟩
    next g hg =>
      split
      next hc => exact Or.inl ⟨rfl, by simp⟩
      next hc =>
        split
        next hm => exact Or.inl ⟨rfl, by simp⟩
        next hm =>
          split
          next hd => exact Or.inl ⟨rfl, by simp⟩
          next hd =>
            refine Or.inr ⟨g, hg, by simpa using hp, by simpa using hc,
              by simpa using hm, by simpa [has_contributed] using hd, rfl, rfl⟩

/-- `contribute` rejects a member whose current-cycle flag is already set,
leaving the state unchanged. -/
theorem contribute_already (s : ContractState) (m : Address) (gid : Nat) (g : Group)
    (hp : s.paused = false) (hg : s.groups gid = some g) (hc : g.is_complete = false)
    (hm : is_member g.members m = true)
    (hd : s.contributions g.id g.current_cycle m = true) :
    contribute s m gid = (s, .error .AlreadyContributed) := by
  unfold contribute has_contributed
  simp [hp, hg, hc, hm, hd]

/-- `all_members_contributed` is `false` exactly when some member lacks the
current-cycle flag. -/
theorem all_members_contributed_eq_false (s : ContractState) (g : Group) :
    all_members_contributed s g = false ↔
      ∃ m ∈ g.members, s.contributions g.id g.current_cycle m = false := by
  unfold all_members_contributed has_contributed
  rw [← Bool.not_eq_true, List.all_eq_true]
  push_neg
  simp

/-- `all_members_contributed` is `true` exactly when every member has the
current-cycle flag. -/
theorem all_members_contributed_eq_true (s : ContractState) (g : Group) :
    all_members_contributed s g = true ↔
      ∀ m ∈ g.members, s.contributions g.id g.current_cycle m = true := by
  unfold all_members_contributed has_contributed
  exact List.all_eq_true

/-- Lookup after `store_group`. -/
theorem store_group_lookup (gs : Nat → Option Group) (k : Nat) (g : Group) (i : Nat) :
    store_group gs k g i = if i = k then some g else gs i := rfl

/-- Inversion of `join_group` on the stored groups: a group found afterwards
is either an old group or the target group with the member appended. -/
theorem join_group_groups_cases (s : ContractState) (m : Address) (gid gid' : Nat)
    (g' : Group) (h : (join_group s m gid).1.groups gid' = some g') :
    s.groups gid' = some g' ∨
    ∃ g, s.groups gid = some g ∧ g.is_complete = false ∧
      g' = { g with members := g.members ++ [m] } := by
  unfold join_group at h
  split at h
  · exact Or.inl h
  · split at h
    · exact Or.inl h
    next g hg =>
      split at h
      · exact Or.inl h
      next hc =>
        split at h
        · exact Or.inl h
        · split at h
          · exact Or.inl h
          · rw [show ((_ : ContractState × Except AjoError Unit)).1.groups
                = store_group s.groups gid ({ g with members := g.members ++ [m] }) from rfl,
              store_group_lookup] at h
            split at h
            · exact Or.inr ⟨g, hg, by simpa using hc, (Option.some.injEq _ _).mp h.symm ▸ rfl⟩
            · exact Or.inl h

/-- Inversion of `create_group` on the stored groups: a group found
afterwards is either an old group or the freshly created one. -/
theorem create_group_groups_cases (s : ContractState) (c t : Address) (a : Int)
    (d mm gp pr now gid' : Nat) (g' : Group)
    (h : (create_group s c t a d mm gp pr now).1.groups gid' = some g') :
    s.groups gid' = some g' ∨
    (g'.payout_index = 0 ∧ g'.members = [c] ∧ g'.is_complete = false) := by
  unfold create_group at h
  split at h
  · exact Or.inl h
  · split at h
    · exact Or.inl h
    · rw [show ((_ : ContractState × Except AjoError Nat)).1.groups
          = store_group s.groups s.next_group_id _ from rfl, store_group_lookup] at h
      split at h
      · cases h
        exact Or.inr ⟨rfl, rfl, rfl⟩
      · exact Or.inl h

/-- Inversion of `execute_payout` on the stored groups: a group found
afterwards is either an old group, or the target group with its payout index
advanced and either completed or moved to the next cycle. -/
theorem execute_payout_groups_cases (s : ContractState) (gid now gid' : Nat)
    (g' : Group) (h : (execute_payout s gid now).1.groups gid' = some g') :
    s.groups gid' = some g' ∨
    ∃ g, s.groups gid = some g ∧ g.is_complete = false ∧
      ((g' = { g with payout_index := g.payout_index + 1, is_complete := true } ∧
          g.members.length ≤ g.payout_index + 1) ∨
       (g' = { g with payout_index := g.payout_index + 1, current_cycle := g.current_cycle + 1, cycle_start_time := now } ∧
          g.payout_index + 1 < g.members.length)) := by
  unfold execute_payout at h
  split at h
  · exact Or.inl h
  · split at h
    · exact Or.inl h
    next g hg =>
      split at h
      · exact Or.inl h
      next hc =>
        split at h
        · exact Or.inl h
        · split at h
          · exact Or.inl h
          next r hr =>
            rw [show ((_ : ContractState × Except AjoError Unit)).1.groups
                = store_group _ gid _ from rfl, store_group_lookup] at h
            split at h
            next heq =>
              refine Or.inr ⟨g, hg, by simpa using hc, ?_⟩
              rcases h with ⟨rfl⟩
              split
              next hle => exact Or.inl ⟨rfl, hle⟩
              next hgt =>
                refine Or.inr ⟨rfl, ?_⟩
                simp only [not_le] at hgt
                exact hgt
            · exact Or.inl h

/-! ### Theorems -/

/-- Claim C1: in every reachable state (groups created by `create_group`
and mutated only by `join_group`, `contribute` and `execute_payout`), every
stored group satisfies `payout_index <= members.length`, and is marked
complete (contract.rs tracks completion through the `is_complete` flag)
exactly when `payout_index = members.length`. -/
theorem reachable_group_invariant {s : ContractState} (hs : Reachable s) :
    ∀ gid g, s.groups gid = some g → GroupInvariant g := by
  induction hs with
  | init =>
    intro gid g hg
    simp only [initState] at hg
    cases hg
  | create_step s c t a d mm gp pr now hs ih =>
    intro gid g hg
    rcases create_group_groups_cases s c t a d mm gp pr now gid g hg with
      h | ⟨h0, h1, h2⟩
    · exact ih gid g h
    · refine ⟨by simp [h0, h1], ?_⟩
      rw [h2, h0, h1]
      simp
  | join_step s m gid0 hs ih =>
    intro gid g hg
    rcases join_group_groups_cases s m gid0 gid g hg with h | ⟨g0, hg0, hc, rfl⟩
    · exact ih gid g h
    · obtain ⟨hle, hiff⟩ := ih gid0 g0 hg0
      constructor
      · show g0.payout_index ≤ (g0.members ++ [m]).length
        simp only [List.length_append, List.length_cons, List.length_nil]
        omega
      · show g0.is_complete = true ↔ g0.payout_index = (g0.members ++ [m]).length
        rw [hc]
        simp only [Bool.false_eq_true, false_iff, List.length_append,
          List.length_cons, List.length_nil]
        omega
  | contribute_step s m gid0 hs ih =>
    intro gid g hg
    rcases contribute_cases s m gid0 with ⟨h1, _⟩ | ⟨g0, _, _, _, _, _, h1, _⟩ <;>
      rw [h1] at hg <;> exact ih gid g hg
  | payout_step s gid0 now hs ih =>
    intro gid g hg
    rcases execute_payout_groups_cases s gid0 now gid g hg with
      h | ⟨g0, hg0, hc, hcase⟩
    · exact ih gid g h
    · obtain ⟨hle, hiff⟩ := ih gid0 g0 hg0
      have hlt0 : g0.payout_index < g0.members.length := by
        rcases Nat.lt_or_ge g0.payout_index g0.members.length with h | h
        · exact h
        · rw [hiff.mpr (le_antisymm hle h)] at hc
          cases hc
      rcases hcase with ⟨rfl, hle2⟩ | ⟨rfl, hlt⟩
      · constructor
        · show g0.payout_index + 1 ≤ g0.members.length
          omega
        · show true = true ↔ g0.payout_index + 1 = g0.members.length
          simp only [true_iff]
          omega
      · constructor
        · show g0.payout_index + 1 ≤ g0.members.length
          omega
        · show g0.is_complete = true ↔ g0.payout_index + 1 = g0.members.length
          rw [hc]
          simp only [Bool.false_eq_true, false_iff]
          omega

/-- Witness for claim C1: the invariant evaluated on the group a concrete
`create_group` call stores into the fresh contract. -/
theorem reachable_group_invariant_witness : GroupInvariant wCreatedGroup :=
  reachable_group_invariant
    (Reachable.create_step initState 1 7 100000000 604800 2 86400 5 1000 Reachable.init)
    0 wCreatedGroup rfl

/-- Claim C3 (amended): the source `contribute` performs no timing
computation at all — it reads no clock, computes no lateness flag and no
penalty.  A member of an existing non-complete group who has not yet
contributed in the current cycle is accepted unconditionally, with no
penalty recorded anywhere and no pool touched, regardless of how the
current time relates to `cycle_start_time + cycle_duration + grace_period`
(the function takes no time input, so this holds at every time). -/
theorem contribute_no_timing_check (s : ContractState) (m : Address) (gid : Nat)
    (g : Group) (hp : s.paused = false) (hg : s.groups gid = some g)
    (hnc : g.is_complete = false) (hm : is_member g.members m = true)
    (hd : s.contributions g.id g.current_cycle m = false) :
    (contribute s m gid).2 = .ok () ∧
    (contribute s m gid).1.contributions g.id g.current_cycle m = true ∧
    (contribute s m gid).1.penalty_records = s.penalty_records ∧
    (contribute s m gid).1.pools = s.pools := by
  unfold contribute has_contributed
  simp [hp, hg, hnc, hm, hd, store_contribution]

/-- Witness for the amended claim C3 at a concrete state. -/
theorem contribute_no_timing_check_witness :
    (contribute wState 2 1).2 = .ok () :=
  (contribute_no_timing_check wState 2 1 wGroup rfl rfl rfl rfl rfl).1

/-- Counterexample to claim C3 as stated: in `wState` the grace window of
group 1 ends at time 1000 + 604800 + 86400 = 692200, yet a contribution by
member 2 "attempted at time 700000" succeeds and is recorded — the source
`contribute` consults no clock, so the very same successful result is what
happens at any time past the grace period, where the claim demands
rejection. -/
theorem contribute_after_grace_cex :
    wGroup.cycle_start_time + wGroup.cycle_duration + wGroup.grace_period < 700000 ∧
    (contribute wState 2 1).2 = .ok () ∧
    (contribute wState 2 1).1.contributions 1 1 2 = true :=
  ⟨by decide, rfl, rfl⟩

/-- Claim C6: once a member has successfully contributed in a cycle, a
second `contribute` call by the same member in the same cycle fails with
`AlreadyContributed` and leaves the whole state — the stored contribution
record included — unchanged. -/
theorem contribute_twice_rejected (s : ContractState) (m : Address) (gid : Nat)
    (h : (contribute s m gid).2 = .ok ()) :
    (contribute (contribute s m gid).1 m gid).2 = .error .AlreadyContributed ∧
    (contribute (contribute s m gid).1 m gid).1 = (contribute s m gid).1 := by
  rcases contribute_cases s m gid with ⟨_, h2⟩ | ⟨g, hg, hp, hc, hm, hd, h1, _⟩
  · exact absurd h h2
  · have hflag : ((contribute s m gid).1).contributions g.id g.current_cycle m = true := by
      rw [h1]
      simp [store_contribution]
    have heq := contribute_already ((contribute s m gid).1) m gid g
      (by rw [h1]; exact hp) (by rw [h1]; exact hg) hc hm hflag
    rw [heq]
    exact ⟨rfl, rfl⟩

/-- Witness for claim C6: member 1 of the demo group contributes, then its
second contribution is rejected. -/
theorem contribute_twice_rejected_witness :
    (contribute (contribute wState 1 1).1 1 1).2 = .error .AlreadyContributed :=
  (contribute_twice_rejected wState 1 1 rfl).1

/-- Claim C10: a successful `contribute` writes only the contribution flag
of `(group.id, current_cycle, member)`: the stored groups (members list,
cycle counters, payout index, completion flag), payout records, pools,
claims and penalty records are untouched, no payout event is emitted and no
token transfer is performed; every other contribution flag is unchanged. -/
theorem contribute_frame (s : ContractState) (m : Address) (gid : Nat)
    (h : (contribute s m gid).2 = .ok ()) :
    ∃ g, s.groups gid = some g ∧
      (contribute s m gid).1.groups = s.groups ∧
      (contribute s m gid).1.transfers = s.transfers ∧
      (contribute s m gid).1.payouts_received = s.payouts_received ∧
      (contribute s m gid).1.payout_log = s.payout_log ∧
      (contribute s m gid).1.pools = s.pools ∧
      (contribute s m gid).1.claims = s.claims ∧
      (contribute s m gid).1.penalty_records = s.penalty_records ∧
      (contribute s m gid).1.contributions g.id g.current_cycle m = true ∧
      ∀ gid' cyc mm, ¬(gid' = g.id ∧ cyc = g.current_cycle ∧ mm = m) →
        (contribute s m gid).1.contributions gid' cyc mm = s.contributions gid' cyc mm := by
  rcases contribute_cases s m gid with ⟨_, h2⟩ | ⟨g, hg, _, _, _, _, h1, _⟩
  · exact absurd h h2
  · refine ⟨g, hg, ?_, ?_, ?_, ?_, ?_, ?_, ?_, ?_, ?_⟩ <;> rw [h1]
    · simp [store_contribution]
    · intro gid' cyc mm hne
      simp only [store_contribution]
      rw [if_neg hne]

/-- Witness for claim C10 at a concrete state: the stored groups are not
modified by a successful contribution. -/
theorem contribute_frame_witness :
    (contribute wState 1 1).1.groups = wState.groups :=
  (contribute_frame wState 1 1 rfl).elim (fun _ hg => hg.2.1)

/-- Claim C9 (amended): no operation of the sources ever creates or mutates
a `MemberPenaltyRecord` — in particular `contribute` (any outcome) leaves
all penalty records untouched — and the risk-scoring query
`get_member_risk_score` ignores the stored history entirely, returning the
constant 100 for every member. -/
theorem contribute_ignores_penalty_records (s : ContractState) (m : Address)
    (gid : Nat) :
    (contribute s m gid).1.penalty_records = s.penalty_records ∧
    ∀ member, get_member_risk_score s member = 100 := by
  constructor
  · rcases contribute_cases s m gid with ⟨h1, _⟩ | ⟨g, _, _, _, _, _, h1, _⟩ <;>
      rw [h1]
  · intro member
    rfl

/-- Counterexample to claim C9 as stated: member 2 of the demo group holds
a penalty record with one on-time and one late contribution, for which the
claimed reliability formula gives 50; yet a successful contribution by that
member updates no penalty record, and the risk-scoring query returns 100,
not 50. -/
theorem risk_score_constant_cex :
    (contribute wPenaltyState 2 1).2 = .ok () ∧
    (contribute wPenaltyState 2 1).1.penalty_records = wPenaltyState.penalty_records ∧
    get_member_risk_score (contribute wPenaltyState 2 1).1 2 = 100 ∧
    specReliabilityScore wPenaltyRecord.on_time_count wPenaltyRecord.late_count = 50 ∧
    (100 : Nat) ≠ 50 :=
  ⟨rfl, rfl, rfl, rfl, by decide⟩

/-- Claim C4 (code bug `file_claim`): called on the fresh contract with a
group id (7) for which no group exists, `file_claim` does fail with
`GroupNotFound` and leaves every pool untouched, but it has already
persisted the Pending claim under the freshly drawn claim id 0 and consumed
that id — a partial write, where the claim demands that a failing operation
leave all stored state unchanged. -/
theorem file_claim_partial_write :
    (file_claim initState 7 1 10 11 500 0).2 = .error .GroupNotFound ∧
    (file_claim initState 7 1 10 11 500 0).1.claims 0 =
      some ({ id := 0, group_id := 7, cycle := 1, defaulter := 11, claimant := 10, amount := 500, status := .Pending, created_at := 0 }) ∧
    (file_claim initState 7 1 10 11 500 0).1.next_claim_id = 1 ∧
    (file_claim initState 7 1 10 11 500 0).1.pools = initState.pools :=
  ⟨rfl, rfl, rfl, rfl⟩

set_option maxHeartbeats 2000000 in
/-- Claim C7: `validate_group_params` returns `ContributionAmountZero`
exactly for a zero or below-minimum amount, `ContributionAmountNegative`
exactly for a negative or above-maximum amount (the negative check winning
over the below-minimum one), `CycleDurationZero` exactly for a duration
outside [1 hour, 365 days] (a zero duration included), the two distinct
member-count errors for counts below 2 / above 100, and `Ok` otherwise;
`validate_metadata_lengths` fails with the shared `MetadataTooLong` exactly
when some length exceeds its bound (name 100, description 500, rules
1000). -/
theorem validation_characterization (a : Int) (d m : Nat)
    (name_len description_len rules_len : Nat) :
    (validate_group_params a d m = .error .ContributionAmountZero ↔
      0 ≤ a ∧ a < MIN_CONTRIBUTION) ∧
    (validate_group_params a d m = .error .ContributionAmountNegative ↔
      a < 0 ∨ MAX_CONTRIBUTION < a) ∧
    (validate_group_params a d m = .error .CycleDurationZero ↔
      (MIN_CONTRIBUTION ≤ a ∧ a ≤ MAX_CONTRIBUTION) ∧
      (d < MIN_CYCLE_DURATION ∨ MAX_CYCLE_DURATION < d)) ∧
    (validate_group_params a d m = .error .MaxMembersBelowMinimum ↔
      (MIN_CONTRIBUTION ≤ a ∧ a ≤ MAX_CONTRIBUTION) ∧
      (MIN_CYCLE_DURATION ≤ d ∧ d ≤ MAX_CYCLE_DURATION) ∧ m < MIN_MEMBERS) ∧
    (validate_group_params a d m = .error .MaxMembersAboveLimit ↔
      (MIN_CONTRIBUTION ≤ a ∧ a ≤ MAX_CONTRIBUTION) ∧
      (MIN_CYCLE_DURATION ≤ d ∧ d ≤ MAX_CYCLE_DURATION) ∧ MAX_MEMBERS < m) ∧
    (validate_group_params a d m = .ok () ↔
      (MIN_CONTRIBUTION ≤ a ∧ a ≤ MAX_CONTRIBUTION) ∧
      (MIN_CYCLE_DURATION ≤ d ∧ d ≤ MAX_CYCLE_DURATION) ∧
      (MIN_MEMBERS ≤ m ∧ m ≤ MAX_MEMBERS)) ∧
    (validate_metadata_lengths name_len description_len rules_len =
        .error .MetadataTooLong ↔
      MAX_NAME_LENGTH < name_len ∨ MAX_DESCRIPTION_LENGTH < description_len ∨
      MAX_RULES_LENGTH < rules_len) ∧
    (validate_metadata_lengths name_len description_len rules_len = .ok () ↔
      name_len ≤ MAX_NAME_LENGTH ∧ description_len ≤ MAX_DESCRIPTION_LENGTH ∧
      rules_len ≤ MAX_RULES_LENGTH) := by
  unfold validate_group_params validate_metadata_lengths
  unfold MIN_CONTRIBUTION MAX_CONTRIBUTION MIN_CYCLE_DURATION MAX_CYCLE_DURATION
  unfold MIN_MEMBERS MAX_MEMBERS MAX_NAME_LENGTH MAX_DESCRIPTION_LENGTH MAX_RULES_LENGTH
  refine ⟨?_, ?_, ?_, ?_, ?_, ?_, ?_, ?_⟩ <;>
    split_ifs <;>
    simp only [Except.error.injEq, Except.ok.injEq, reduceCtorEq,
      iff_true, iff_false, true_iff, false_iff, not_or, not_and, not_lt, not_le] <;>
    omega

/-- Claim C8: `verify_claim` fails `InvalidClaim` when no claim with the
given id exists, and otherwise returns `true` exactly when the claim's
defaulter has no contribution record for the claim's group and cycle. -/
theorem verify_claim_characterization (s : ContractState) (claim_id : Nat) :
    (s.claims claim_id = none → verify_claim s claim_id = .error .InvalidClaim) ∧
    (∀ c, s.claims claim_id = some c →
      (verify_claim s claim_id = .ok true ↔
        s.contributions c.group_id c.cycle c.defaulter = false)) := by
  constructor
  · intro h
    unfold verify_claim
    rw [h]
  · intro c hc
    unfold verify_claim
    rw [hc]
    unfold has_contributed
    constructor
    · intro h
      simp only [Except.ok.injEq] at h
      simpa using h
    · intro h
      simp [h]

/-- Witness for claim C8: the stored demo claim verifies `true` (its
defaulter, member 2, has no contribution record for cycle 1), and a
missing claim id fails `InvalidClaim`. -/
theorem verify_claim_characterization_witness :
    verify_claim wClaimState 0 = .ok true ∧
    verify_claim initState 5 = .error .InvalidClaim :=
  ⟨((verify_claim_characterization wClaimState 0).2 wClaim rfl).mpr rfl,
   (verify_claim_characterization initState 5).1 rfl⟩

/-- Claim C5: `process_claim` fails `InvalidClaim` when the claim is
missing, `ClaimAlreadyProcessed` when its status is not Pending,
`PoolNotFound` when the group exists but no pool exists for its token, and
`InsufficientPoolBalance` when approving with `pool.balance <
claim.amount` — each failure returning the state completely unchanged (pool
balance and claim status included); approval debits the pool by the amount,
credits `total_payouts`, sets the claim Paid and transfers the amount from
the contract to the claimant; rejection sets it Rejected with no transfer;
both non-failing paths decrement `pending_claims_count`. -/
theorem process_claim_characterization (s : ContractState) (claim_id : Nat) :
    (s.claims claim_id = none →
      ∀ approved, process_claim s claim_id approved = (s, .error .InvalidClaim)) ∧
    (∀ c, s.claims claim_id = some c → c.status ≠ ClaimStatus.Pending →
      ∀ approved,
        process_claim s claim_id approved = (s, .error .ClaimAlreadyProcessed)) ∧
    (∀ c g, s.claims claim_id = some c → c.status = ClaimStatus.Pending →
      s.groups c.group_id = some g → s.pools g.token_address = none →
      ∀ approved, process_claim s claim_id approved = (s, .error .PoolNotFound)) ∧
    (∀ c g p, s.claims claim_id = some c → c.status = ClaimStatus.Pending →
      s.groups c.group_id = some g → s.pools g.token_address = some p →
      p.balance < c.amount →
      process_claim s claim_id true = (s, .error .InsufficientPoolBalance)) ∧
    (∀ c g p, s.claims claim_id = some c → c.status = ClaimStatus.Pending →
      s.groups c.group_id = some g → s.pools g.token_address = some p →
      ¬p.balance < c.amount →
      (process_claim s claim_id true).2 = .ok () ∧
      (process_claim s claim_id true).1.pools g.token_address =
        some ({ balance := p.balance - c.amount, total_payouts := p.total_payouts + c.amount, pending_claims_count := p.pending_claims_count - 1 }) ∧
      (process_claim s claim_id true).1.claims claim_id =
        some ({ c with status := ClaimStatus.Paid }) ∧
      (process_claim s claim_id true).1.transfers =
        s.transfers ++ [(g.token_address, contract_address, c.claimant, c.amount)]) ∧
    (∀ c g p, s.claims claim_id = some c → c.status = ClaimStatus.Pending →
      s.groups c.group_id = some g → s.pools g.token_address = some p →
      (process_claim s claim_id false).2 = .ok () ∧
      (process_claim s claim_id false).1.pools g.token_address =
        some ({ p with pending_claims_count := p.pending_claims_count - 1 }) ∧
      (process_claim s claim_id false).1.claims claim_id =
        some ({ c with status := ClaimStatus.Rejected }) ∧
      (process_claim s claim_id false).1.transfers = s.transfers) := by
  refine ⟨?_, ?_, ?_, ?_, ?_, ?_⟩
  · intro h approved
    unfold process_claim
    rw [h]
  · intro c hc hs approved
    unfold process_claim
    simp only [hc]
    rw [if_pos hs]
  · intro c g hc hpend hg hpool approved
    unfold process_claim
    simp only [hc, hg, hpool]
    rw [if_neg (by simp [hpend])]
  · intro c g p hc hpend hg hpool hlt
    unfold process_claim
    simp only [hc, hg, hpool]
    rw [if_neg (by simp [hpend])]
    simp [hlt]
  · intro c g p hc hpend hg hpool hge
    unfold process_claim
    simp only [hc, hg, hpool]
    rw [if_neg (by simp [hpend])]
    simp [hge, store_insurance_pool, store_insurance_claim]
  · intro c g p hc hpend hg hpool
    unfold process_claim
    simp only [hc, hg, hpool]
    rw [if_neg (by simp [hpend])]
    simp [store_insurance_pool, store_insurance_claim]

/-- Witness for claim C5, the spec scenario of section 8: a pool with
balance 500 and a Pending claim of 600; approving fails
`InsufficientPoolBalance` and the whole state — pool balance and claim
status included — is unchanged. -/
theorem process_claim_characterization_witness :
    process_claim wClaimState 0 true = (wClaimState, .error .InsufficientPoolBalance) ∧
    wPool.balance = 500 ∧ wClaim.amount = 600 :=
  ⟨(process_claim_characterization wClaimState 0).2.2.2.1 wClaim wGroup wPool
      rfl rfl rfl rfl (by decide), rfl, rfl⟩

/-- Claim C2 (amended): for an existing, non-complete, unpaused group whose
payout index is a valid member position (which claim C1 shows holds in all
reachable states), `execute_payout` fails with `IncompleteContributions` —
leaving the state unchanged — exactly when some current member lacks a
current-cycle contribution flag; otherwise it succeeds, emits a payout of
exactly `contribution_amount * member_count` (the code maintains no penalty
pool, so nothing is added to this amount) to `members[payout_index]`, marks
the payout received, increments `payout_index`, and then either marks the
group complete (when the new index reaches the member count) or increments
`current_cycle` and resets `cycle_start_time` to the current time. -/
theorem execute_payout_characterization (s : ContractState) (gid now : Nat)
    (g : Group) (hp : s.paused = false) (hg : s.groups gid = some g)
    (hnc : g.is_complete = false) (hlt : g.payout_index < g.members.length) :
    ((execute_payout s gid now).2 = .error .IncompleteContributions ↔
      ∃ m ∈ g.members, s.contributions g.id g.current_cycle m = false) ∧
    ((execute_payout s gid now).2 = .error .IncompleteContributions →
      (execute_payout s gid now).1 = s) ∧
    ((∀ m ∈ g.members, s.contributions g.id g.current_cycle m = true) →
      ∃ r, g.members[g.payout_index]? = some r ∧
        (execute_payout s gid now).2 = .ok () ∧
        (execute_payout s gid now).1.payout_log = s.payout_log ++
          [(g.id, r, g.current_cycle, g.contribution_amount * (g.members.length : Int))] ∧
        (execute_payout s gid now).1.payouts_received g.id r = true ∧
        ∃ g', (execute_payout s gid now).1.groups gid = some g' ∧
          g'.payout_index = g.payout_index + 1 ∧
          (g.payout_index + 1 = g.members.length →
            g'.is_complete = true ∧ g'.current_cycle = g.current_cycle ∧
            g'.cycle_start_time = g.cycle_start_time) ∧
          (g.payout_index + 1 < g.members.length →
            g'.is_complete = false ∧ g'.current_cycle = g.current_cycle + 1 ∧
            g'.cycle_start_time = now)) := by
  have hget : g.members[g.payout_index]? = some g.members[g.payout_index] :=
    List.getElem?_eq_getElem hlt
  refine ⟨⟨?_, ?_⟩, ?_, ?_⟩
  · intro h
    by_cases hall : all_members_contributed s g = false
    · exact (all_members_contributed_eq_false s g).mp hall
    · exfalso
      have hall' : all_members_contributed s g = true := by
        revert hall
        cases all_members_contributed s g <;> simp
      unfold execute_payout at h
      simp [hp, hg, hnc, hall', hget] at h
  · intro hex
    have hall : all_members_contributed s g = false :=
      (all_members_contributed_eq_false s g).mpr hex
    unfold execute_payout
    simp [hp, hg, hnc, hall]
  · intro h
    by_cases hall : all_members_contributed s g = false
    · unfold execute_payout
      simp [hp, hg, hnc, hall]
    · exfalso
      have hall' : all_members_contributed s g = true := by
        revert hall
        cases all_members_contributed s g <;> simp
      unfold execute_payout at h
      simp [hp, hg, hnc, hall', hget] at h
  · intro hforall
    have hall' : all_members_contributed s g = true :=
      (all_members_contributed_eq_true s g).mpr hforall
    refine ⟨g.members[g.payout_index], hget, ?_, ?_, ?_, ?_⟩
    · unfold execute_payout
      simp [hp, hg, hnc, hall', hget]
    · unfold execute_payout
      simp [hp, hg, hnc, hall', hget]
    · unfold execute_payout
      simp [hp, hg, hnc, hall', hget, mark_payout_received]
    · by_cases hfin : g.members.length ≤ g.payout_index + 1
      · refine ⟨{ g with payout_index := g.payout_index + 1, is_complete := true },
          ?_, rfl, ?_, ?_⟩
        · unfold execute_payout
          simp [hp, hg, hnc, hall', hget, hfin, store_group]
        · intro _
          exact ⟨rfl, rfl, rfl⟩
        · intro hlt2
          exact absurd hfin (by omega)
      · refine ⟨{ g with payout_index := g.payout_index + 1, current_cycle := g.current_cycle + 1, cycle_start_time := now },
          ?_, rfl, ?_, ?_⟩
        · unfold execute_payout
          simp [hp, hg, hnc, hall', hget, hfin, store_group]
        · intro heq
          exact absurd hfin (by omega)
        · intro _
          exact ⟨hnc, rfl, rfl⟩

/-- Witness for the amended claim C2 at a concrete state in which both
members contributed. -/
theorem execute_payout_characterization_witness :
    ((execute_payout wStateContributed 1 9999).2 = .error .IncompleteContributions ↔
      ∃ m ∈ wGroup.members,
        wStateContributed.contributions wGroup.id wGroup.current_cycle m = false) :=
  (execute_payout_characterization wStateContributed 1 9999 wGroup rfl rfl rfl
    (by decide)).1

/-- Counterexample to claim C2 as stated.  In the run producing
`wStateContributed`, member 2's contribution happens (per the scenario) at
time 605900: past the cycle end 1000 + 604800 = 605800, within the grace
window ending at 692200, so by the spec it carries a 5 percent penalty of
5,000,000 stroops into the cycle penalty pool, and claim C2 demands a
payout of 200,000,000 + 5,000,000 = 205,000,000 to member 1; the source
`execute_payout` emits exactly 200,000,000 — no penalty pool exists
anywhere in the code. -/
theorem execute_payout_penalty_pool_cex :
    wGroup.cycle_start_time + wGroup.cycle_duration < 605900 ∧
    605900 ≤ wGroup.cycle_start_time + wGroup.cycle_duration + wGroup.grace_period ∧
    specLatePenalty wGroup wGroup.contribution_amount 605900 = 5000000 ∧
    specPayoutWithPool wGroup
      (specLatePenalty wGroup wGroup.contribution_amount 605900) = 205000000 ∧
    (execute_payout wStateContributed 1 605900).2 = .ok () ∧
    (execute_payout wStateContributed 1 605900).1.payout_log =
      [(1, 1, 1, 200000000)] ∧
    (200000000 : Int) ≠ 205000000 :=
  ⟨by decide, by decide, by decide, by decide, rfl, rfl, by decide⟩

end Ajo
